/-
Verification of the yamf service-mesh client core (Python) against its
natural-language specification.

Shallow embedding notes:
* Python `dict` fields that are only read/written by key are modelled as
  functions `String → Option β` (a dict lookup miss is `none`); the inner
  subscription-handler dict, whose insertion order is observable through
  `dispatch`, is modelled as an association list.
* `random.choice(locations)` is modelled by an explicit selector index `k`:
  the chosen element is `locations[k % locations.length]`.
* The async transport (`http_request`) is modelled as an oracle parameter;
  a `Bool` parameter says whether a given registry exchange raises.
* Python truthiness on strings (`if not location`, `if registry_token`)
  is modelled faithfully: the empty string is falsy.
-/
import Mathlib

namespace Yamf

/-- Pointwise update of a string-keyed map, modelling `d[k] = v` (with
`v = none` modelling `del d[k]` / `d.pop(k, None)`). -/
def upd {β : Type} (f : String → Option β) (k : String) (v : Option β) :
    String → Option β :=
  fun k' => if k' = k then v else f k'

theorem upd_same {β : Type} (f : String → Option β) (k : String) (v : Option β) :
    upd f k v k = v := by
  simp [upd]

theorem upd_other {β : Type} (f : String → Option β) (k : String) (v : Option β)
    (k' : String) (h : k' ≠ k) : upd f k v k' = f k' := by
  simp [upd, h]

/-- `yamf/service/state.py`, class `ServiceState`: local cache of registry
state.  `services`: name → list of locations; `addresses`: location → name
(reverse lookup); `subscriptions`: channel → list of subscriber locations. -/
structure ServiceState where
  services : String → Option (List String)
  addresses : String → Option String
  subscriptions : String → Option (List String)

/-- The dataclass default: all three dicts empty. -/
def ServiceState.empty : ServiceState :=
  ⟨fun _ => none, fun _ => none, fun _ => none⟩

/-- `ServiceState.add_service`:
`self.addresses[location] = name`; create `self.services[name]` if missing;
append `location` if not already present. -/
def ServiceState.add_service (s : ServiceState) (name location : String) :
    ServiceState :=
  let addresses := upd s.addresses location (some name)
  let locs0 := (s.services name).getD []
  let locs1 := if location ∈ locs0 then locs0 else locs0 ++ [location]
  { s with addresses := addresses, services := upd s.services name (some locs1) }

/-- `ServiceState.remove_service`:
`self.addresses.pop(location, None)`; if `name` is a key, filter `location`
out of its list and delete the key when the list becomes empty. -/
def ServiceState.remove_service (s : ServiceState) (name location : String) :
    ServiceState :=
  let addresses := upd s.addresses location none
  match s.services name with
  | none => { s with addresses := addresses }
  | some locs =>
    let locs' := locs.filter (fun loc => loc ≠ location)
    if locs' = [] then
      { s with addresses := addresses, services := upd s.services name none }
    else
      { s with addresses := addresses, services := upd s.services name (some locs') }

/-- `ServiceState.add_subscription`: create the channel entry if missing,
append `location` if not already present. -/
def ServiceState.add_subscription (s : ServiceState) (channel location : String) :
    ServiceState :=
  let locs0 := (s.subscriptions channel).getD []
  let locs1 := if location ∈ locs0 then locs0 else locs0 ++ [location]
  { s with subscriptions := upd s.subscriptions channel (some locs1) }

/-- `ServiceState.remove_subscription`: if the channel is a key, filter
`location` out and delete the key when the list becomes empty. -/
def ServiceState.remove_subscription (s : ServiceState) (channel location : String) :
    ServiceState :=
  match s.subscriptions channel with
  | none => s
  | some locs =>
    let locs' := locs.filter (fun loc => loc ≠ location)
    if locs' = [] then
      { s with subscriptions := upd s.subscriptions channel none }
    else
      { s with subscriptions := upd s.subscriptions channel (some locs') }

/-- `ServiceState.get_location`: `locations = self.services.get(name, [])`;
`random.choice(locations) if locations else None`.  The random draw is
modelled by the selector index `k`. -/
def ServiceState.get_location (s : ServiceState) (service_name : String) (k : Nat) :
    Option String :=
  let locations := (s.services service_name).getD []
  if locations.isEmpty then none else locations.get? (k % locations.length)

/-- `ServiceState.has_service`:
`service_name in self.services and len(self.services[service_name]) > 0`. -/
def ServiceState.has_service (s : ServiceState) (service_name : String) : Bool :=
  match s.services service_name with
  | some locs => !locs.isEmpty
  | none => false

/-- Registry snapshot passed to `ServiceState.update_from_registry`; each
field is present exactly when the corresponding key is in the dict. -/
structure RegistrySnapshot where
  servicesTab : Option (String → Option (List String))
  addressesTab : Option (String → Option String)
  subscriptionsTab : Option (String → Option (List String))

/-- `ServiceState.update_from_registry`: each of the three tables is
replaced if (and only if) the snapshot carries the corresponding key. -/
def ServiceState.update_from_registry (s : ServiceState) (d : RegistrySnapshot) :
    ServiceState :=
  { services := d.servicesTab.getD s.services
    addresses := d.addressesTab.getD s.addresses
    subscriptions := d.subscriptionsTab.getD s.subscriptions }

/-- `ServiceState.clear`: clear all three dicts. -/
def ServiceState.clear (_s : ServiceState) : ServiceState :=
  ServiceState.empty

/-- The spec's discovery-cache invariant (spec §3):
`location ∈ servicesByName[name] ⇔ nameByLocation[location] == name`. -/
def CacheInv (s : ServiceState) : Prop :=
  ∀ name location : String,
    location ∈ (s.services name).getD [] ↔ s.addresses location = some name

/-- States reachable from the empty cache by arbitrary sequences of the four
mutation operations, exactly as claim C1 quantifies them. -/
inductive Reachable : ServiceState → Prop where
  | empty : Reachable ServiceState.empty
  | addS {s} (name location : String) :
      Reachable s → Reachable (s.add_service name location)
  | removeS {s} (name location : String) :
      Reachable s → Reachable (s.remove_service name location)
  | addSub {s} (channel location : String) :
      Reachable s → Reachable (s.add_subscription channel location)
  | removeSub {s} (channel location : String) :
      Reachable s → Reachable (s.remove_subscription channel location)

/-- Reachability restricted to reverse-index-consistent service mutations:
`add_service`/`remove_service` may only be invoked for a `(name, location)`
pair whose `location` is currently unmapped or already mapped to `name`. -/
inductive ReachableC : ServiceState → Prop where
  | empty : ReachableC ServiceState.empty
  | addS {s} (name location : String) :
      ReachableC s →
      (s.addresses location = none ∨ s.addresses location = some name) →
      ReachableC (s.add_service name location)
  | removeS {s} (name location : String) :
      ReachableC s →
      (s.addresses location = none ∨ s.addresses location = some name) →
      ReachableC (s.remove_service name location)
  | addSub {s} (channel location : String) :
      ReachableC s → ReachableC (s.add_subscription channel location)
  | removeSub {s} (channel location : String) :
      ReachableC s → ReachableC (s.remove_subscription channel location)

/-! ## Call dispatcher (`yamf/api/call_service.py`) -/

/-- Outcome of `call_service_with_cache`: either `ServiceNotFoundError(name)`
is raised, or the direct exchange's result is returned. -/
inductive CallResult (ρ : Type) where
  | serviceNotFound (name : String)
  | ok (r : ρ)
deriving DecidableEq

/-- `call_service_with_cache(cache, name, payload)`:
raise `ServiceNotFoundError(name)` unless `cache.has_service(name)`;
`location = cache.get_location(name)`; `if not location:` raise the same
error (Python falsiness: `None` or the empty string); otherwise return
`await http_request(location, body=payload)`.  The transport is the oracle
`ex`, the random draw inside `get_location` is the index `k`.  The
`callable(name)` stub-normalization branch is outside the string model
(`name` here is always already a string). -/
def call_service_with_cache {π ρ : Type} (ex : String → Option π → ρ)
    (cache : ServiceState) (name : String) (payload : Option π) (k : Nat) :
    CallResult ρ :=
  if ¬ cache.has_service name then .serviceNotFound name
  else
    match cache.get_location name k with
    | none => .serviceNotFound name
    | some location =>
      if location = "" then .serviceNotFound name
      else .ok (ex location payload)

/-- The condition under which `call_service_with_cache` executes its second
`raise ServiceNotFoundError` (the branch after `get_location`): the
`has_service` guard passed but `not location` held. -/
def post_pick_not_found (cache : ServiceState) (name : String) (k : Nat) : Bool :=
  cache.has_service name &&
    (match cache.get_location name k with
     | none => true
     | some location => location = "")

/-! ## Protocol codec (`yamf/headers.py`, `yamf/constants.py`) -/

/-- A header dict, keyed by header name. -/
def Headers : Type := String → Option String

/-- The empty header dict. -/
def emptyHeaders : Headers := fun _ => none

/-- `constants.py`, `Header` enum values. -/
def Header.COMMAND : String := "yamf-command"

/-- `Header.SERVICE_NAME`. -/
def Header.SERVICE_NAME : String := "yamf-service-name"

/-- `Header.SERVICE_LOCATION`. -/
def Header.SERVICE_LOCATION : String := "yamf-service-location"

/-- `Header.SERVICE_HOME`. -/
def Header.SERVICE_HOME : String := "yamf-service-home"

/-- `Header.USE_AUTH_SERVICE`. -/
def Header.USE_AUTH_SERVICE : String := "yamf-use-auth-service"

/-- `Header.AUTH_TOKEN`. -/
def Header.AUTH_TOKEN : String := "yamf-auth-token"

/-- `Header.REGISTRY_TOKEN`. -/
def Header.REGISTRY_TOKEN : String := "yamf-registry-token"

/-- `Header.ROUTE_PATH`. -/
def Header.ROUTE_PATH : String := "yamf-route-path"

/-- `Header.ROUTE_DATATYPE`. -/
def Header.ROUTE_DATATYPE : String := "yamf-route-datatype"

/-- `Header.ROUTE_TYPE`. -/
def Header.ROUTE_TYPE : String := "yamf-route-type"

/-- `Header.PUBSUB_CHANNEL`. -/
def Header.PUBSUB_CHANNEL : String := "yamf-pubsub-channel"

/-- `constants.py`, `Command` enum values (the ones the builders use). -/
def Command.SERVICE_SETUP : String := "service-setup"

/-- `Command.SERVICE_REGISTER`. -/
def Command.SERVICE_REGISTER : String := "service-register"

/-- `Command.SERVICE_UNREGISTER`. -/
def Command.SERVICE_UNREGISTER : String := "service-unregister"

/-- `Command.SERVICE_LOOKUP`. -/
def Command.SERVICE_LOOKUP : String := "service-lookup"

/-- `Command.SERVICE_CALL`. -/
def Command.SERVICE_CALL : String := "service-call"

/-- `Command.ROUTE_REGISTER`. -/
def Command.ROUTE_REGISTER : String := "route-register"

/-- `Command.PUBSUB_PUBLISH`. -/
def Command.PUBSUB_PUBLISH : String := "pubsub-publish"

/-- `Command.PUBSUB_SUBSCRIBE`. -/
def Command.PUBSUB_SUBSCRIBE : String := "pubsub-subscribe"

/-- `Command.PUBSUB_UNSUBSCRIBE`. -/
def Command.PUBSUB_UNSUBSCRIBE : String := "pubsub-unsubscribe"

/-- `Command.CACHE_UPDATE`. -/
def Command.CACHE_UPDATE : String := "cache-update"

/-- Python truthiness of an optional string argument (`if registry_token:`):
`None` and the empty string are falsy. -/
def truthy (o : Option String) : Bool :=
  match o with
  | some s => !s.isEmpty
  | none => false

/-- Conditionally attach a header, modelling
`if tok: headers[KEY] = tok`. -/
def withOptHeader (h : Headers) (key : String) (o : Option String) : Headers :=
  match o with
  | some s => if s.isEmpty then h else upd h key (some s)
  | none => h

/-- `build_setup_headers(service_name, service_home, registry_token=None)`. -/
def build_setup_headers (service_name service_home : String)
    (registry_token : Option String) : Headers :=
  withOptHeader
    (upd (upd (upd emptyHeaders Header.COMMAND (some Command.SERVICE_SETUP))
      Header.SERVICE_NAME (some service_name))
      Header.SERVICE_HOME (some service_home))
    Header.REGISTRY_TOKEN registry_token

/-- `build_register_headers(service_name, location, use_auth_service=None,
registry_token=None)`. -/
def build_register_headers (service_name location : String)
    (use_auth_service registry_token : Option String) : Headers :=
  withOptHeader
    (withOptHeader
      (upd (upd (upd emptyHeaders Header.COMMAND (some Command.SERVICE_REGISTER))
        Header.SERVICE_NAME (some service_name))
        Header.SERVICE_LOCATION (some location))
      Header.USE_AUTH_SERVICE use_auth_service)
    Header.REGISTRY_TOKEN registry_token

/-- `build_unregister_headers(service_name, location, registry_token=None)`. -/
def build_unregister_headers (service_name location : String)
    (registry_token : Option String) : Headers :=
  withOptHeader
    (upd (upd (upd emptyHeaders Header.COMMAND (some Command.SERVICE_UNREGISTER))
      Header.SERVICE_NAME (some service_name))
      Header.SERVICE_LOCATION (some location))
    Header.REGISTRY_TOKEN registry_token

/-- `build_lookup_headers(service_name)`. -/
def build_lookup_headers (service_name : String) : Headers :=
  upd (upd emptyHeaders Header.COMMAND (some Command.SERVICE_LOOKUP))
    Header.SERVICE_NAME (some service_name)

/-- `build_call_headers(service_name, auth_token=None)`. -/
def build_call_headers (service_name : String) (auth_token : Option String) :
    Headers :=
  withOptHeader
    (upd (upd emptyHeaders Header.COMMAND (some Command.SERVICE_CALL))
      Header.SERVICE_NAME (some service_name))
    Header.AUTH_TOKEN auth_token

/-- `build_route_register_headers(service_name, route_path, data_type,
route_type, registry_token=None)`. -/
def build_route_register_headers (service_name route_path data_type route_type : String)
    (registry_token : Option String) : Headers :=
  withOptHeader
    (upd (upd (upd (upd (upd emptyHeaders Header.COMMAND (some Command.ROUTE_REGISTER))
      Header.SERVICE_NAME (some service_name))
      Header.ROUTE_PATH (some route_path))
      Header.ROUTE_DATATYPE (some data_type))
      Header.ROUTE_TYPE (some route_type))
    Header.REGISTRY_TOKEN registry_token

/-- `build_publish_headers(channel, registry_token=None)`. -/
def build_publish_headers (channel : String) (registry_token : Option String) :
    Headers :=
  withOptHeader
    (upd (upd emptyHeaders Header.COMMAND (some Command.PUBSUB_PUBLISH))
      Header.PUBSUB_CHANNEL (some channel))
    Header.REGISTRY_TOKEN registry_token

/-- `build_subscribe_headers(channel, location, registry_token=None)`. -/
def build_subscribe_headers (channel location : String)
    (registry_token : Option String) : Headers :=
  withOptHeader
    (upd (upd (upd emptyHeaders Header.COMMAND (some Command.PUBSUB_SUBSCRIBE))
      Header.PUBSUB_CHANNEL (some channel))
      Header.SERVICE_LOCATION (some location))
    Header.REGISTRY_TOKEN registry_token

/-- `build_unsubscribe_headers(channel, location, registry_token=None)`. -/
def build_unsubscribe_headers (channel location : String)
    (registry_token : Option String) : Headers :=
  withOptHeader
    (upd (upd (upd emptyHeaders Header.COMMAND (some Command.PUBSUB_UNSUBSCRIBE))
      Header.PUBSUB_CHANNEL (some channel))
      Header.SERVICE_LOCATION (some location))
    Header.REGISTRY_TOKEN registry_token

/-- `build_cache_update_headers(pubsub_channel, service_name, location)` —
note: this builder takes no registry-token argument. -/
def build_cache_update_headers (pubsub_channel service_name location : String) :
    Headers :=
  upd (upd (upd (upd emptyHeaders Header.COMMAND (some Command.CACHE_UPDATE))
    Header.PUBSUB_CHANNEL (some pubsub_channel))
    Header.SERVICE_NAME (some service_name))
    Header.SERVICE_LOCATION (some location)

/-- The structured command descriptor returned by `parse_command_headers`. -/
structure CommandDescriptor where
  command : Option String
  service_name : Option String
  service_location : Option String
  use_auth_service : Option String
  service_home : Option String
  route_path : Option String
  route_data_type : Option String
  route_type : Option String
  pubsub_channel : Option String
deriving DecidableEq

/-- `parse_command_headers(headers)`: one `headers.get(...)` per field. -/
def parse_command_headers (h : Headers) : CommandDescriptor :=
  { command := h Header.COMMAND
    service_name := h Header.SERVICE_NAME
    service_location := h Header.SERVICE_LOCATION
    use_auth_service := h Header.USE_AUTH_SERVICE
    service_home := h Header.SERVICE_HOME
    route_path := h Header.ROUTE_PATH
    route_data_type := h Header.ROUTE_DATATYPE
    route_type := h Header.ROUTE_TYPE
    pubsub_channel := h Header.PUBSUB_CHANNEL }

/-! ## Subscription manager (`yamf/service/pubsub.py`) -/

/-- A registry exchange issued by the pub/sub manager: the `http_request`
against the registry carrying subscribe/unsubscribe headers for `channel`
and the manager's `service_location`. -/
inductive RegEvent where
  | subscribeEx (channel location : String)
  | unsubscribeEx (channel location : String)
deriving DecidableEq

/-- `PubSubManager` (the fields the subscription logic reads/writes):
`_handlers : channel → {sub_id → handler}` and `_counter`.  Handlers are
modelled as Lean functions `μ → Except String ρ` (an `Except.error`
models a raised exception), so the `callable(handler)` validation always
passes.  The inner dict is an association list because `handle_message`
iterates it in insertion order. -/
structure PubSubManager (μ ρ : Type) where
  service_name : String
  service_location : String
  handlers : String → Option (List (String × (μ → Except String ρ)))
  counter : Nat

/-- `sub_id = f"sub_{channel}_{self._counter}_{int(time.time() * 1000)}"`,
with the millisecond timestamp as the parameter `ts`. -/
def mkSubId (channel : String) (counter ts : Nat) : String :=
  "sub_" ++ channel ++ "_" ++ Nat.repr counter ++ "_" ++ Nat.repr ts

/-- Dict assignment `d[k] = v` on the inner sub-id dict: replace the value
of an existing key in place, else append the new key. -/
def alistInsert {α : Type} (l : List (String × α)) (k : String) (v : α) :
    List (String × α) :=
  match l with
  | [] => [(k, v)]
  | (k', v') :: rest =>
    if k' = k then (k, v) :: rest else (k', v') :: alistInsert rest k v

/-- `del d[k]` on the inner sub-id dict: drop the (unique) matching key. -/
def alistErase {α : Type} (l : List (String × α)) (k : String) :
    List (String × α) :=
  match l with
  | [] => []
  | (k', v') :: rest =>
    if k' = k then rest else (k', v') :: alistErase rest k

/-- `k in d` / `d.get(k)` on the inner sub-id dict. -/
def alistFind {α : Type} (l : List (String × α)) (k : String) : Option α :=
  match l with
  | [] => none
  | (k', v') :: rest => if k' = k then some v' else alistFind rest k

/-- Result of `PubSubManager.subscribe`: normal return of the sub id, or
the registry exchange raised (the manager state as already mutated is
carried along, since the Python object keeps its mutations). -/
inductive SubResult (μ ρ : Type) where
  | ok (m : PubSubManager μ ρ) (subId : String)
  | registryFailed (m : PubSubManager μ ρ)

/-- `PubSubManager.subscribe(channel, handler)`: bump `_counter`, build the
sub id; if the channel has no entry, create an empty entry and issue the
registry subscribe exchange (which may raise — `exFails`) before adding the
handler; finally store the handler under the sub id.  Returns the result
together with the list of registry exchanges issued. -/
def subscribeOp {μ ρ : Type} (m : PubSubManager μ ρ) (channel : String)
    (handler : μ → Except String ρ) (ts : Nat) (exFails : Bool) :
    SubResult μ ρ × List RegEvent :=
  let counter := m.counter + 1
  let subId := mkSubId channel counter ts
  match m.handlers channel with
  | none =>
    let m1 : PubSubManager μ ρ :=
      { m with counter := counter, handlers := upd m.handlers channel (some []) }
    if exFails then
      (.registryFailed m1, [.subscribeEx channel m.service_location])
    else
      (.ok { m1 with handlers := upd m1.handlers channel (some [(subId, handler)]) } subId,
       [.subscribeEx channel m.service_location])
  | some hs =>
    (.ok { m with counter := counter,
                  handlers := upd m.handlers channel (some (alistInsert hs subId handler)) }
        subId, [])

/-- Result of `PubSubManager.unsubscribe`: normal return, `ValueError`
for an unknown channel/sub id (state untouched), or the registry exchange
raised after the local removal already happened. -/
inductive UnsubResult (μ ρ : Type) where
  | ok (m : PubSubManager μ ρ)
  | validationFailed
  | registryFailed (m : PubSubManager μ ρ)

/-- `PubSubManager.unsubscribe(channel, sub_id)`: `ValueError` if the
channel or sub id is unknown; delete the handler; if it was the last one,
delete the channel entry and issue the registry unsubscribe exchange. -/
def unsubscribeOp {μ ρ : Type} (m : PubSubManager μ ρ) (channel subId : String)
    (exFails : Bool) : UnsubResult μ ρ × List RegEvent :=
  match m.handlers channel with
  | none => (.validationFailed, [])
  | some hs =>
    match alistFind hs subId with
    | none => (.validationFailed, [])
    | some _ =>
      let hs' := alistErase hs subId
      if hs'.isEmpty then
        let m1 : PubSubManager μ ρ := { m with handlers := upd m.handlers channel none }
        if exFails then
          (.registryFailed m1, [.unsubscribeEx channel m.service_location])
        else
          (.ok m1, [.unsubscribeEx channel m.service_location])
      else
        (.ok { m with handlers := upd m.handlers channel (some hs') }, [])

/-- An entry of the `errors` list returned by `handle_message`: either the
single descriptive string of the no-handler case, or the structured
per-handler entry `{'subId': ..., 'error': ..., 'status': 500}`. -/
inductive ErrEntry where
  | noHandlers (message : String)
  | handlerError (subId : String) (error : String) (status : Nat)
deriving DecidableEq

/-- The `{'results': ..., 'errors': ...}` dict `handle_message` returns. -/
structure DispatchOutcome (ρ : Type) where
  results : List ρ
  errors : List ErrEntry

/-- `PubSubManager.handle_message(channel, message)`: if the channel has no
entry, return empty results and the single descriptive error string;
otherwise invoke each handler in insertion order, appending its return
value to `results` on success and a structured entry to `errors` when it
raises. -/
def handle_message {μ ρ : Type} (m : PubSubManager μ ρ) (channel : String)
    (message : μ) : DispatchOutcome ρ :=
  match m.handlers channel with
  | none => ⟨[], [.noHandlers ("No handlers for channel " ++ channel)]⟩
  | some hs =>
    hs.foldl
      (fun acc p =>
        match p.2 message with
        | .ok r => { acc with results := acc.results ++ [r] }
        | .error e => { acc with errors := acc.errors ++ [.handlerError p.1 e 500] })
      ⟨[], []⟩

/-- `PubSubManager.has_channel(channel)`. -/
def PubSubManager.has_channel {μ ρ : Type} (m : PubSubManager μ ρ)
    (channel : String) : Bool :=
  match m.handlers channel with
  | some hs => !hs.isEmpty
  | none => false

/-! ## Registration coordinator retry loop (`yamf/api/create_service.py`) -/

/-- Outcome of one `create_http_server(port, ...)` bind attempt:
success, `OSError` with "Address already in use", or any other `OSError`. -/
inductive BindResult where
  | ok
  | addrInUse
  | otherError
deriving DecidableEq

/-- Outcome of the port-allocation/bind loop of `create_service`, with the
total number of registry setup calls and bind attempts made. -/
inductive AllocOutcome where
  | bound (port : Nat) (setupCalls bindAttempts : Nat)
  | retryExceeded (setupCalls bindAttempts : Nat)
  | fatalBind (setupCalls bindAttempts : Nat)
deriving DecidableEq

/-- The `while server is None` loop of `create_service`.  `bindRes i` is the
outcome of the `i`-th bind attempt (0-based) and `alloc j` the port returned
by the `j`-th registry setup call (0-based; the initial pre-loop setup call
is `alloc 0`).  `remaining` is the number of re-allocations still allowed,
i.e. `retry_limit - 1 - attempts`: the Python loop raises
`RegistrationError` when, after `attempts += 1`, `attempts >= retry_limit`,
which on the `k`-th failure (`attempts = k`) holds exactly when
`remaining = 0` here.  `setupCalls`/`bindAttempts` count calls made so far. -/
def allocate_and_bind (bindRes : Nat → BindResult) (alloc : Nat → Nat) :
    Nat → Nat → Nat → Nat → AllocOutcome
  | 0, setupCalls, bindAttempts, port =>
    match bindRes bindAttempts with
    | .ok => .bound port setupCalls (bindAttempts + 1)
    | .otherError => .fatalBind setupCalls (bindAttempts + 1)
    | .addrInUse => .retryExceeded setupCalls (bindAttempts + 1)
  | r + 1, setupCalls, bindAttempts, port =>
    match bindRes bindAttempts with
    | .ok => .bound port setupCalls (bindAttempts + 1)
    | .otherError => .fatalBind setupCalls (bindAttempts + 1)
    | .addrInUse =>
      allocate_and_bind bindRes alloc r (setupCalls + 1) (bindAttempts + 1)
        (alloc setupCalls)

/-- Overall outcome of service creation as far as C3 observes it. -/
inductive RegOutcome where
  | registered (port : Nat) (setupCalls bindAttempts : Nat)
  | registrationError (setupCalls bindAttempts : Nat)
  | fatalBind (setupCalls bindAttempts : Nat)
deriving DecidableEq

/-- `create_service`, reduced to its setup/bind/register skeleton: one
initial setup call (`alloc 0`), the bind loop with
`retry_limit = retryLimit`, then `_register_with_registry` (success given
by `registerOk`; on failure the server is stopped and `RegistrationError`
raised, with no retry). -/
def create_service_reg (bindRes : Nat → BindResult) (alloc : Nat → Nat)
    (retryLimit : Nat) (registerOk : Bool) : RegOutcome :=
  match allocate_and_bind bindRes alloc (retryLimit - 1) 1 0 (alloc 0) with
  | .bound port s b =>
    if registerOk then .registered port s b else .registrationError s b
  | .retryExceeded s b => .registrationError s b
  | .fatalBind s b => .fatalBind s b

/-! ## Decimal representation facts

The sub ids generated by `subscribeOp` embed `Nat.repr` of the counter and
timestamp between underscores; the following lemmas show decimal digit
strings contain no underscore and that `Nat.repr` is injective, so two sub
ids built from different counter values always differ. -/

theorem toDigitsCore_append (b : Nat) :
    ∀ (f n : Nat) (acc : List Char),
      Nat.toDigitsCore b f n acc = Nat.toDigitsCore b f n [] ++ acc := by
  intro f
  induction f with
  | zero => intro n acc; simp [Nat.toDigitsCore]
  | succ f ih =>
    intro n acc
    simp only [Nat.toDigitsCore]
    by_cases h : n / b = 0
    · simp [h]
    · simp only [h, if_false]
      rw [ih (n / b) (Nat.digitChar (n % b) :: acc),
        ih (n / b) [Nat.digitChar (n % b)]]
      simp

theorem toDigitsCore_fuel (b : Nat) (hb : 2 ≤ b) :
    ∀ (f f' n : Nat), n < f → n < f' →
      Nat.toDigitsCore b f n [] = Nat.toDigitsCore b f' n [] := by
  intro f
  induction f with
  | zero => intro f' n h; omega
  | succ f ih =>
    intro f' n hf hf'
    cases f' with
    | zero => omega
    | succ f'' =>
      simp only [Nat.toDigitsCore]
      by_cases h : n / b = 0
      · simp [h]
      · simp only [h, if_false]
        have hn0 : 0 < n := by
          rcases Nat.eq_zero_or_pos n with h0 | h0
          · subst h0; simp [Nat.zero_div] at h
          · exact h0
        have hdiv : n / b < n := Nat.div_lt_self hn0 (by omega)
        rw [toDigitsCore_append b f (n / b), toDigitsCore_append b f'' (n / b)]
        rw [ih f'' (n / b) (by omega) (by omega)]

/-- The decimal digit-character list of `n`, i.e. `(Nat.repr n).data`. -/
def natDigits (n : Nat) : List Char := Nat.toDigits 10 n

theorem natDigits_eq (n : Nat) :
    natDigits n =
      if n < 10 then [Nat.digitChar n]
      else natDigits (n / 10) ++ [Nat.digitChar (n % 10)] := by
  by_cases h : n < 10
  · have hd : n / 10 = 0 := Nat.div_eq_of_lt h
    have hm : n % 10 = n := Nat.mod_eq_of_lt h
    simp [natDigits, Nat.toDigits, Nat.toDigitsCore, hd, hm, h]
  · have hd : n / 10 ≠ 0 := by
      intro h0
      exact h ((Nat.div_eq_zero_iff (by omega)).mp h0)
    have hdiv : n / 10 < n := Nat.div_lt_self (by omega) (by omega)
    rw [if_neg h]
    show Nat.toDigits 10 n = natDigits (n / 10) ++ [Nat.digitChar (n % 10)]
    rw [show natDigits (n / 10) = Nat.toDigitsCore 10 (n / 10 + 1) (n / 10) [] from rfl]
    rw [← toDigitsCore_fuel 10 (by omega) n (n / 10 + 1) (n / 10) (by omega) (by omega)]
    rw [← toDigitsCore_append 10 n (n / 10) [Nat.digitChar (n % 10)]]
    show Nat.toDigitsCore 10 (n + 1) n [] = _
    simp only [Nat.toDigitsCore]
    simp [hd]

theorem natDigits_ne_nil (n : Nat) : natDigits n ≠ [] := by
  rw [natDigits_eq]
  by_cases h : n < 10 <;> simp [h]

theorem digitChar_lt16_ne_underscore : ∀ d < 16, Nat.digitChar d ≠ '_' := by decide

theorem digitChar_ne_underscore (d : Nat) : Nat.digitChar d ≠ '_' := by
  by_cases h : d < 16
  · exact digitChar_lt16_ne_underscore d h
  · have hstar : Nat.digitChar d = '*' := by
      unfold Nat.digitChar
      repeat rw [if_neg (by omega)]
    rw [hstar]
    decide

theorem digitChar_inj10 :
    ∀ d < 10, ∀ e < 10, Nat.digitChar d = Nat.digitChar e → d = e := by decide

theorem natDigits_no_underscore (n : Nat) : '_' ∉ natDigits n := by
  induction n using Nat.strong_induction_on with
  | _ n ih =>
    rw [natDigits_eq]
    by_cases h : n < 10
    · simp [h, Ne.symm (digitChar_ne_underscore n)]
    · have hdiv : n / 10 < n := Nat.div_lt_self (by omega) (by omega)
      simp [h, ih _ hdiv, Ne.symm (digitChar_ne_underscore (n % 10))]

theorem natDigits_inj : ∀ m n : Nat, natDigits m = natDigits n → m = n := by
  intro m
  induction m using Nat.strong_induction_on with
  | _ m ih =>
    intro n h
    rw [natDigits_eq m, natDigits_eq n] at h
    by_cases hm : m < 10 <;> by_cases hn : n < 10
    · simp only [hm, hn, if_true] at h
      exact digitChar_inj10 m hm n hn (List.cons.inj h).1
    · simp only [hm, hn, if_true, if_false] at h
      have hlen := congrArg List.length h
      simp at hlen
      exact absurd hlen (natDigits_ne_nil (n / 10))
    · simp only [hm, hn, if_true, if_false] at h
      have hlen := congrArg List.length h
      simp at hlen
      exact absurd hlen (natDigits_ne_nil (m / 10))
    · simp only [hm, hn, if_false] at h
      obtain ⟨h1, h2⟩ := List.append_inj' h (by simp)
      have hmod : m % 10 = n % 10 :=
        digitChar_inj10 (m % 10) (Nat.mod_lt m (by omega)) (n % 10)
          (Nat.mod_lt n (by omega)) (List.cons.inj h2).1
      have hdivm : m / 10 < m := Nat.div_lt_self (by omega) (by omega)
      have hdiv : m / 10 = n / 10 := ih (m / 10) hdivm (n / 10) h1
      have em := Nat.div_add_mod m 10
      have en := Nat.div_add_mod n 10
      omega

theorem nat_repr_data (n : Nat) : (Nat.repr n).data = natDigits n := rfl

theorem sep_append_inj :
    ∀ (a a' b b' : List Char), '_' ∉ a → '_' ∉ a' →
      a ++ '_' :: b = a' ++ '_' :: b' → a = a' ∧ b = b' := by
  intro a
  induction a with
  | nil =>
    intro a' b b' _ ha' h
    cases a' with
    | nil => simpa using h
    | cons x xs =>
      simp only [List.nil_append, List.cons_append] at h
      obtain ⟨hx, -⟩ := List.cons.inj h
      exact absurd hx.symm (fun hc => ha' (hc ▸ List.mem_cons_self x xs))
  | cons y ys ihy =>
    intro a' b b' ha ha' h
    cases a' with
    | nil =>
      simp only [List.nil_append, List.cons_append] at h
      obtain ⟨hx, -⟩ := List.cons.inj h
      exact absurd hx (fun hc => ha (hc ▸ List.mem_cons_self y ys))
    | cons x xs =>
      simp only [List.cons_append] at h
      obtain ⟨hx, htl⟩ := List.cons.inj h
      obtain ⟨h1, h2⟩ := ihy xs b b' (fun hc => ha (List.mem_cons_of_mem y hc))
        (fun hc => ha' (List.mem_cons_of_mem x hc)) htl
      exact ⟨by rw [hx, h1], h2⟩

theorem mkSubId_ne_of_counter_ne (channel : String) (c1 c2 t1 t2 : Nat)
    (hne : c1 ≠ c2) : mkSubId channel c1 t1 ≠ mkSubId channel c2 t2 := by
  intro h
  apply hne
  have hdata := congrArg String.data h
  simp only [mkSubId, String.data_append, List.append_assoc] at hdata
  have h1 := List.append_cancel_left hdata
  have h2 := List.append_cancel_left h1
  have h3 := List.append_cancel_left h2
  simp only [List.singleton_append] at h3
  obtain ⟨hrep, -⟩ := sep_append_inj _ _ _ _
    (by rw [nat_repr_data]; exact natDigits_no_underscore c1)
    (by rw [nat_repr_data]; exact natDigits_no_underscore c2) h3
  exact natDigits_inj c1 c2 (by rw [← nat_repr_data, ← nat_repr_data, hrep])

/-! ## Structural lemmas about `ServiceState` operations -/

theorem add_service_addresses (s : ServiceState) (name location : String) :
    (s.add_service name location).addresses = upd s.addresses location (some name) := rfl

theorem add_service_services (s : ServiceState) (name location : String) :
    (s.add_service name location).services =
      upd s.services name
        (some (if location ∈ (s.services name).getD []
               then (s.services name).getD []
               else (s.services name).getD [] ++ [location])) := rfl

theorem add_service_subscriptions (s : ServiceState) (name location : String) :
    (s.add_service name location).subscriptions = s.subscriptions := rfl

theorem remove_service_addresses (s : ServiceState) (name location : String) :
    (s.remove_service name location).addresses = upd s.addresses location none := by
  unfold ServiceState.remove_service
  split
  · rfl
  · dsimp only
    split
    · rfl
    · rfl

theorem remove_service_subscriptions (s : ServiceState) (name location : String) :
    (s.remove_service name location).subscriptions = s.subscriptions := by
  unfold ServiceState.remove_service
  split
  · rfl
  · dsimp only
    split
    · rfl
    · rfl

theorem remove_service_services_absent (s : ServiceState) (name location : String)
    (hsn : s.services name = none) :
    (s.remove_service name location).services = s.services := by
  unfold ServiceState.remove_service
  rw [hsn]

theorem remove_service_services_del (s : ServiceState) (name location : String)
    (locs : List String) (hsn : s.services name = some locs)
    (hf : locs.filter (fun loc => loc ≠ location) = []) :
    (s.remove_service name location).services = upd s.services name none := by
  unfold ServiceState.remove_service
  rw [hsn]
  dsimp only
  rw [if_pos hf]

theorem remove_service_services_keep (s : ServiceState) (name location : String)
    (locs : List String) (hsn : s.services name = some locs)
    (hf : ¬ locs.filter (fun loc => loc ≠ location) = []) :
    (s.remove_service name location).services =
      upd s.services name (some (locs.filter (fun loc => loc ≠ location))) := by
  unfold ServiceState.remove_service
  rw [hsn]
  dsimp only
  rw [if_neg hf]

theorem add_subscription_services (s : ServiceState) (channel location : String) :
    (s.add_subscription channel location).services = s.services := rfl

theorem add_subscription_addresses (s : ServiceState) (channel location : String) :
    (s.add_subscription channel location).addresses = s.addresses := rfl

theorem remove_subscription_services (s : ServiceState) (channel location : String) :
    (s.remove_subscription channel location).services = s.services := by
  unfold ServiceState.remove_subscription
  split
  · rfl
  · dsimp only
    split
    · rfl
    · rfl

theorem remove_subscription_addresses (s : ServiceState) (channel location : String) :
    (s.remove_subscription channel location).addresses = s.addresses := by
  unfold ServiceState.remove_subscription
  split
  · rfl
  · dsimp only
    split
    · rfl
    · rfl

theorem mem_add_loc_iff {locs : List String} {location l : String}
    (hne : location ≠ l) :
    (location ∈ if l ∈ locs then locs else locs ++ [l]) ↔ location ∈ locs := by
  by_cases h : l ∈ locs <;> simp [h, hne]

/-- The invariant is preserved by a reverse-index-consistent `add_service`. -/
theorem cacheInv_add (s : ServiceState) (n l : String) (hInv : CacheInv s)
    (hg : s.addresses l = none ∨ s.addresses l = some n) :
    CacheInv (s.add_service n l) := by
  intro name location
  rw [add_service_addresses, add_service_services]
  by_cases hname : name = n
  · by_cases hloc : location = l
    · rw [hname, hloc, upd_same, upd_same]
      rw [Option.getD_some]
      constructor
      · intro _
        rfl
      · intro _
        by_cases hmem : l ∈ (s.services n).getD []
        · rw [if_pos hmem]
          exact hmem
        · rw [if_neg hmem]
          exact List.mem_append.mpr (Or.inr (List.mem_singleton.mpr rfl))
    · rw [hname, upd_same, upd_other _ _ _ _ hloc]
      simp only [Option.getD_some]
      rw [mem_add_loc_iff hloc]
      exact hInv n location
  · rw [upd_other _ _ _ _ hname]
    by_cases hloc : location = l
    · rw [hloc, upd_same]
      constructor
      · intro hmem
        exfalso
        have hx := (hInv name l).mp (hloc ▸ hmem)
        rcases hg with hg | hg
        · rw [hg] at hx
          exact Option.noConfusion hx
        · rw [hg] at hx
          exact hname (Option.some.inj hx).symm
      · intro hcon
        exact absurd (Option.some.inj hcon) (fun e => hname e.symm)
    · rw [upd_other _ _ _ _ hloc]
      exact hInv name location

/-- The invariant is preserved by a reverse-index-consistent
`remove_service`. -/
theorem cacheInv_remove (s : ServiceState) (n l : String) (hInv : CacheInv s)
    (hg : s.addresses l = none ∨ s.addresses l = some n) :
    CacheInv (s.remove_service n l) := by
  have haddr_false : ∀ name : String, name ≠ n →
      ¬ s.addresses l = some name := by
    intro name hname hcon
    rcases hg with hg | hg
    · rw [hg] at hcon
      exact Option.noConfusion hcon
    · rw [hg] at hcon
      exact hname (Option.some.inj hcon).symm
  intro name location
  rw [remove_service_addresses]
  cases hsn : s.services n with
  | none =>
    rw [remove_service_services_absent s n l hsn]
    by_cases hloc : location = l
    · rw [hloc, upd_same]
      constructor
      · intro hmem
        exfalso
        rcases hg with hg | hg
        · have hx := (hInv name l).mp (hloc ▸ hmem)
          rw [hg] at hx
          exact Option.noConfusion hx
        · have := (hInv n l).mpr hg
          rw [hsn] at this
          simp at this
      · intro hcon
        exact absurd hcon (fun h => Option.noConfusion h)
    · rw [upd_other _ _ _ _ hloc]
      exact hInv name location
  | some locs =>
    by_cases hf : locs.filter (fun loc => loc ≠ l) = []
    · rw [remove_service_services_del s n l locs hsn hf]
      by_cases hname : name = n
      · rw [hname, upd_same]
        simp only [Option.getD_none, List.not_mem_nil, false_iff]
        by_cases hloc : location = l
        · rw [hloc, upd_same]
          exact fun hcon => Option.noConfusion hcon
        · rw [upd_other _ _ _ _ hloc]
          intro hcon
          have hmem := (hInv n location).mpr (hname ▸ hcon)
          rw [hsn] at hmem
          simp only [Option.getD_some] at hmem
          have hall := List.filter_eq_nil_iff.mp hf
          have := hall location hmem
          simp at this
          exact hloc this
      · rw [upd_other _ _ _ _ hname]
        by_cases hloc : location = l
        · rw [hloc, upd_same]
          constructor
          · intro hmem
            exact absurd ((hInv name l).mp (hloc ▸ hmem)) (haddr_false name hname)
          · intro hcon
            exact absurd hcon (fun h => Option.noConfusion h)
        · rw [upd_other _ _ _ _ hloc]
          exact hInv name location
    · rw [remove_service_services_keep s n l locs hsn hf]
      by_cases hname : name = n
      · rw [hname, upd_same]
        simp only [Option.getD_some]
        by_cases hloc : location = l
        · rw [hloc, upd_same]
          constructor
          · intro hmem
            exfalso
            rw [List.mem_filter] at hmem
            simp at hmem
          · intro hcon
            exact absurd hcon (fun h => Option.noConfusion h)
        · rw [upd_other _ _ _ _ hloc]
          rw [List.mem_filter]
          constructor
          · intro hmem
            have h1 : location ∈ (s.services n).getD [] := by
              rw [hsn]
              exact hmem.1
            exact hname ▸ (hInv n location).mp h1
          · intro hcon
            constructor
            · have := (hInv n location).mpr (hname ▸ hcon)
              rw [hsn] at this
              exact this
            · simpa using hloc
      · rw [upd_other _ _ _ _ hname]
        by_cases hloc : location = l
        · rw [hloc, upd_same]
          constructor
          · intro hmem
            exact absurd ((hInv name l).mp (hloc ▸ hmem)) (haddr_false name hname)
          · intro hcon
            exact absurd hcon (fun h => Option.noConfusion h)
        · rw [upd_other _ _ _ _ hloc]
          exact hInv name location


theorem cacheInv_of_reachableC : ∀ s, ReachableC s → CacheInv s := by
  intro s h
  induction h with
  | empty => intro n l; simp [ServiceState.empty, CacheInv]
  | addS name location _ hg ih => exact cacheInv_add _ name location ih hg
  | removeS name location _ hg ih => exact cacheInv_remove _ name location ih hg
  | addSub channel location _ ih =>
    intro n l
    rw [show (ServiceState.add_subscription _ channel location).services = _ from
      add_subscription_services _ channel location]
    rw [show (ServiceState.add_subscription _ channel location).addresses = _ from
      add_subscription_addresses _ channel location]
    exact ih n l
  | removeSub channel location _ ih =>
    intro n l
    rw [show (ServiceState.remove_subscription _ channel location).services = _ from
      remove_subscription_services _ channel location]
    rw [show (ServiceState.remove_subscription _ channel location).addresses = _ from
      remove_subscription_addresses _ channel location]
    exact ih n l

theorem remove_subscription_subscriptions_del (s : ServiceState)
    (channel location : String) (locs : List String)
    (hsc : s.subscriptions channel = some locs)
    (hf : locs.filter (fun loc => loc ≠ location) = []) :
    (s.remove_subscription channel location).subscriptions =
      upd s.subscriptions channel none := by
  unfold ServiceState.remove_subscription
  rw [hsc]
  dsimp only
  rw [if_pos hf]

theorem has_service_none (s : ServiceState) (n : String)
    (h : s.services n = none) : s.has_service n = false := by
  unfold ServiceState.has_service
  rw [h]

/-! ## Claim C1 — the discovery-cache invariant -/

/-- C1, counterexample state: `addService("a","L"); addService("b","L")`
re-binds location "L" to name "b" while "L" is still listed under "a". -/
def c1BadState : ServiceState :=
  (ServiceState.empty.add_service "a" "L").add_service "b" "L"

/-- C1, counterexample: the state reached from the empty cache by
`addService("a","L"); addService("b","L")` is reachable in the claim's
sense but violates the invariant: "L" is in `servicesByName["a"]` while
`nameByLocation["L"] = "b"`. -/
theorem c1_invariant_counterexample : Reachable c1BadState ∧ ¬ CacheInv c1BadState := by
  constructor
  · exact Reachable.addS "b" "L" (Reachable.addS "a" "L" Reachable.empty)
  · intro h
    have hmem : "L" ∈ (c1BadState.services "a").getD [] := by decide
    have hx := (h "a" "L").mp hmem
    have hb : c1BadState.addresses "L" = some "b" := by decide
    rw [hb] at hx
    exact absurd (Option.some.inj hx) (by decide)

/-- C1 (amended): the invariant `location ∈ servicesByName[name] ⇔
nameByLocation[location] == name` holds for every cache state reachable by
sequences of the four mutation operations in which each
`addService`/`removeService` call is consistent with the current reverse
index (its location unmapped, or already mapped to the given name);
moreover, unconditionally, removing the last location for a name deletes
the name's entry and removing the last subscriber for a channel deletes
the channel's entry. -/
theorem c1_invariant_amended :
    (∀ s, ReachableC s → CacheInv s) ∧
    (∀ (s : ServiceState) (name location : String) (locs : List String),
      s.services name = some locs →
      locs.filter (fun loc => loc ≠ location) = [] →
      (s.remove_service name location).services name = none) ∧
    (∀ (s : ServiceState) (channel location : String) (locs : List String),
      s.subscriptions channel = some locs →
      locs.filter (fun loc => loc ≠ location) = [] →
      (s.remove_subscription channel location).subscriptions channel = none) := by
  refine ⟨cacheInv_of_reachableC, ?_, ?_⟩
  · intro s name location locs hsn hf
    rw [remove_service_services_del s name location locs hsn hf, upd_same]
  · intro s channel location locs hsc hf
    rw [remove_subscription_subscriptions_del s channel location locs hsc hf, upd_same]

/-- C1, witness: each conjunct of the amended invariant theorem applied at
a concrete consistent state. -/
theorem c1_invariant_witness :
    CacheInv (ServiceState.empty.add_service "a" "L") ∧
    ((ServiceState.empty.add_service "a" "L").remove_service "a" "L").services "a" = none ∧
    ((ServiceState.empty.add_subscription "c" "L").remove_subscription "c" "L").subscriptions "c" = none :=
  ⟨c1_invariant_amended.1 _ (ReachableC.addS "a" "L" ReachableC.empty (Or.inl rfl)),
   c1_invariant_amended.2.1 _ "a" "L" ["L"] (by decide) (by decide),
   c1_invariant_amended.2.2 _ "c" "L" ["L"] (by decide) (by decide)⟩

/-! ## Claim C6 — replaceAll discards prior entries -/

/-- C6, a prior cache state with one entry in each table. -/
def c6PriorCache : ServiceState :=
  { services := upd (fun _ => none) "a" (some ["L"])
    addresses := upd (fun _ => none) "L" (some "a")
    subscriptions := upd (fun _ => none) "ch" (some ["L"]) }

/-- C6 (amended): when the registry snapshot supplies all three tables,
`replaceAll` (`update_from_registry`) discards all prior entries: no entry
absent from the snapshot remains in any of the three tables. -/
theorem c6_replace_all_discards :
    ∀ (s : ServiceState) (sv : String → Option (List String))
      (ad : String → Option String) (su : String → Option (List String))
      (name location channel : String),
      (sv name = none →
        (s.update_from_registry ⟨some sv, some ad, some su⟩).services name = none) ∧
      (ad location = none →
        (s.update_from_registry ⟨some sv, some ad, some su⟩).addresses location = none) ∧
      (su channel = none →
        (s.update_from_registry ⟨some sv, some ad, some su⟩).subscriptions channel = none) := by
  intro s sv ad su name location channel
  refine ⟨?_, ?_, ?_⟩ <;> intro h <;>
    simpa [ServiceState.update_from_registry] using h

/-- C6, witness: the amended theorem applied to a concrete prior cache and
the all-empty snapshot. -/
theorem c6_replace_all_witness :
    (c6PriorCache.update_from_registry
      ⟨some (fun _ => none), some (fun _ => none), some (fun _ => none)⟩).services "a" = none ∧
    (c6PriorCache.update_from_registry
      ⟨some (fun _ => none), some (fun _ => none), some (fun _ => none)⟩).addresses "L" = none ∧
    (c6PriorCache.update_from_registry
      ⟨some (fun _ => none), some (fun _ => none), some (fun _ => none)⟩).subscriptions "ch" = none :=
  ⟨(c6_replace_all_discards c6PriorCache _ _ _ "a" "L" "ch").1 rfl,
   (c6_replace_all_discards c6PriorCache _ _ _ "a" "L" "ch").2.1 rfl,
   (c6_replace_all_discards c6PriorCache _ _ _ "a" "L" "ch").2.2 rfl⟩

/-- C6, counterexample: a registry snapshot carrying none of the three
table keys leaves a prior entry in place even though the entry is absent
from the snapshot, because `update_from_registry` only replaces a table
when the corresponding key is present in the registry data. -/
theorem c6_replace_all_counterexample :
    c6PriorCache.services "a" = some ["L"] ∧
    (⟨none, none, none⟩ : RegistrySnapshot).servicesTab = none ∧
    (c6PriorCache.update_from_registry ⟨none, none, none⟩).services "a" = some ["L"] := by
  refine ⟨?_, rfl, ?_⟩ <;> decide

/-! ## Claim C7 — addService then removeService round trip -/

/-- C7, counterexample starting cache: name "a" already has location "M". -/
def c7PriorCache : ServiceState :=
  { services := upd (fun _ => none) "a" (some ["M"])
    addresses := upd (fun _ => none) "M" (some "a")
    subscriptions := fun _ => none }

/-- C7, counterexample: from a starting cache in which "a" already has
another location "M", `addService("a","L")` then `removeService("a","L")`
leaves `hasService("a")` true, refuting the claim's "any starting cache
state". -/
theorem c7_add_remove_counterexample :
    ((c7PriorCache.add_service "a" "L").remove_service "a" "L").has_service "a" = true := by
  decide

/-- C7 (amended): for all `(name, location)` and any starting cache state,
after `addService` then `removeService`, `nameByLocation` has no entry for
`location`; and `hasService(name)` is false provided `name` had no
location other than `location` beforehand (in particular from any state
where `name` is absent, e.g. the empty cache). -/
theorem c7_add_remove :
    ∀ (s : ServiceState) (name location : String),
      ((s.add_service name location).remove_service name location).addresses location = none ∧
      ((∀ loc ∈ (s.services name).getD [], loc = location) →
        ((s.add_service name location).remove_service name location).has_service name = false) := by
  intro s name location
  constructor
  · rw [remove_service_addresses, upd_same]
  · intro hall
    have hsv : (s.add_service name location).services name
        = some (if location ∈ (s.services name).getD [] then (s.services name).getD []
                else (s.services name).getD [] ++ [location]) := by
      rw [add_service_services, upd_same]
    have hallf : (if location ∈ (s.services name).getD [] then (s.services name).getD []
                  else (s.services name).getD [] ++ [location]).filter
          (fun loc => loc ≠ location) = [] := by
      rw [List.filter_eq_nil_iff]
      intro a ha
      by_cases hmem : location ∈ (s.services name).getD []
      · rw [if_pos hmem] at ha
        simp [hall a ha]
      · rw [if_neg hmem] at ha
        rcases List.mem_append.mp ha with h1 | h1
        · simp [hall a h1]
        · simp [List.mem_singleton.mp h1]
    apply has_service_none
    rw [remove_service_services_del _ name location _ hsv hallf, upd_same]

/-- C7, witness: the round-trip theorem applied to the empty cache. -/
theorem c7_add_remove_witness :
    ((ServiceState.empty.add_service "x" "L").remove_service "x" "L").addresses "L" = none ∧
    ((ServiceState.empty.add_service "x" "L").remove_service "x" "L").has_service "x" = false :=
  ⟨(c7_add_remove ServiceState.empty "x" "L").1,
   (c7_add_remove ServiceState.empty "x" "L").2 (by decide)⟩

/-! ## Lemmas about `get_location` and `has_service` -/

theorem get_location_mem (s : ServiceState) (name : String) (k : Nat)
    (location : String) (h : s.get_location name k = some location) :
    location ∈ (s.services name).getD [] := by
  unfold ServiceState.get_location at h
  by_cases he : ((s.services name).getD []).isEmpty
  · rw [if_pos he] at h
    cases h
  · rw [if_neg he] at h
    exact List.get?_mem h

theorem has_service_of_get_location (s : ServiceState) (name : String) (k : Nat)
    (location : String) (h : s.get_location name k = some location) :
    s.has_service name = true := by
  unfold ServiceState.get_location at h
  unfold ServiceState.has_service
  cases hsn : s.services name with
  | none =>
    rw [hsn] at h
    simp at h
  | some locs =>
    rw [hsn] at h
    simp only [Option.getD_some] at h
    by_cases he : locs.isEmpty
    · rw [if_pos he] at h
      cases h
    · simp [he]

theorem get_location_isSome_of_has_service (s : ServiceState) (name : String)
    (k : Nat) (h : s.has_service name = true) :
    (s.get_location name k).isSome = true := by
  unfold ServiceState.has_service at h
  unfold ServiceState.get_location
  cases hsn : s.services name with
  | none =>
    rw [hsn] at h
    cases h
  | some locs =>
    rw [hsn] at h
    simp only [Option.getD_some]
    have hne : ¬ locs.isEmpty := by simpa using h
    rw [if_neg hne]
    have hpos : 0 < locs.length := by
      cases locs with
      | nil => simp at hne
      | cons a as => simp
    have hlt : k % locs.length < locs.length := Nat.mod_lt _ hpos
    rw [List.get?_eq_get hlt]
    rfl

theorem get_location_none_of_not_has_service (s : ServiceState) (name : String)
    (k : Nat) (h : s.has_service name = false) :
    s.get_location name k = none := by
  unfold ServiceState.has_service at h
  unfold ServiceState.get_location
  cases hsn : s.services name with
  | none => rfl
  | some locs =>
    rw [hsn] at h
    simp only [Option.getD_some]
    rw [if_pos (by simpa using h)]

/-! ## Claim C5 — cache-based call -/

/-- C5 (amended): the cache-based call raises `ServiceNotFoundError(name)`
whenever `hasService(name)` is false (in particular on the empty cache),
and never consults the registry: every successful result is the direct
exchange against a location stored in the cache for `name`.  When the name
is present and the picked location is non-empty, the exchange's result is
returned; a picked empty-string location instead raises
`ServiceNotFoundError` (Python `if not location`). -/
theorem c5_cache_call :
    ∀ {π ρ : Type} (ex : String → Option π → ρ) (cache : ServiceState)
      (name : String) (payload : Option π) (k : Nat),
      (cache.has_service name = false →
        call_service_with_cache ex cache name payload k = .serviceNotFound name) ∧
      (∀ location, cache.get_location name k = some location → location ≠ "" →
        call_service_with_cache ex cache name payload k = .ok (ex location payload)) ∧
      (∀ r, call_service_with_cache ex cache name payload k = .ok r →
        ∃ location, location ∈ (cache.services name).getD [] ∧ location ≠ "" ∧
          r = ex location payload) := by
  intro π ρ ex cache name payload k
  refine ⟨?_, ?_, ?_⟩
  · intro h
    unfold call_service_with_cache
    rw [if_pos (by simp [h])]
  · intro location hget hne
    unfold call_service_with_cache
    rw [if_neg (by simp [has_service_of_get_location cache name k location hget])]
    rw [hget]
    dsimp only
    rw [if_neg hne]
  · intro r h
    unfold call_service_with_cache at h
    by_cases hs : cache.has_service name
    · rw [if_neg (by simpa using hs)] at h
      cases hget : cache.get_location name k with
      | none =>
        rw [hget] at h
        cases h
      | some location =>
        rw [hget] at h
        dsimp only at h
        by_cases hne : location = ""
        · rw [if_pos hne] at h
          cases h
        · rw [if_neg hne] at h
          exact ⟨location, get_location_mem cache name k location hget, hne,
            (CallResult.ok.inj h).symm⟩
    · rw [if_pos (by simpa using hs)] at h
      cases h

/-- C5, a one-entry cache for the witness. -/
def c5Cache : ServiceState :=
  { services := upd (fun _ => none) "x" (some ["loc1"])
    addresses := upd (fun _ => none) "loc1" (some "x")
    subscriptions := fun _ => none }

/-- C5, witness: the call theorem applied on the empty cache (raises) and
on a one-entry cache (returns the exchange's result). -/
theorem c5_cache_call_witness :
    call_service_with_cache (fun loc (_ : Option Nat) => loc) ServiceState.empty "x" none 0
      = .serviceNotFound "x" ∧
    call_service_with_cache (fun loc (_ : Option Nat) => loc) c5Cache "x" none 0
      = .ok "loc1" ∧
    (∃ location, location ∈ (c5Cache.services "x").getD [] ∧ location ≠ "" ∧
      "loc1" = (fun loc (_ : Option Nat) => loc) location none) :=
  ⟨(c5_cache_call (fun loc (_ : Option Nat) => loc) ServiceState.empty "x" none 0).1 rfl,
   (c5_cache_call (fun loc (_ : Option Nat) => loc) c5Cache "x" none 0).2.1 "loc1"
     (by decide) (by decide),
   (c5_cache_call (fun loc (_ : Option Nat) => loc) c5Cache "x" none 0).2.2 "loc1"
     ((c5_cache_call (fun loc (_ : Option Nat) => loc) c5Cache "x" none 0).2.1 "loc1"
       (by decide) (by decide))⟩

/-- C5, counterexample cache: "x" present but its only location is "". -/
def c5EmptyLocCache : ServiceState :=
  { services := upd (fun _ => none) "x" (some [""])
    addresses := upd (fun _ => none) "" (some "x")
    subscriptions := fun _ => none }

/-- C5, counterexample: the name is present in the cache (`hasService`
true), yet the call raises `ServiceNotFoundError` instead of returning the
exchange's result (here `7`), because the picked location is the empty
string and `if not location` treats it as missing. -/
theorem c5_cache_call_counterexample :
    c5EmptyLocCache.has_service "x" = true ∧
    call_service_with_cache (fun _ (_ : Option Nat) => 7) c5EmptyLocCache "x" none 0
      = .serviceNotFound "x" := by
  constructor <;> decide

/-! ## Claim C8 — pickLocation safety -/

/-- C8 (amended): `pickLocation` (`get_location`) never raises — it returns
`none` exactly when the name is absent or has no locations, otherwise some
element of `servicesByName[name]`; whenever `hasService(name)` holds it
returns a location; and the post-pick not-found branch of the cache-based
call is unreachable provided no cached location for the name is the empty
string (with a cached empty-string location the branch is taken). -/
theorem c8_pick_location :
    ∀ (cache : ServiceState) (name : String) (k : Nat),
      (∀ location, cache.get_location name k = some location →
        location ∈ (cache.services name).getD []) ∧
      (cache.has_service name = true → (cache.get_location name k).isSome = true) ∧
      (cache.has_service name = false → cache.get_location name k = none) ∧
      ((∀ location ∈ (cache.services name).getD [], location ≠ "") →
        post_pick_not_found cache name k = false) := by
  intro cache name k
  refine ⟨?_, ?_, ?_, ?_⟩
  · intro location h
    exact get_location_mem cache name k location h
  · intro h
    exact get_location_isSome_of_has_service cache name k h
  · intro h
    exact get_location_none_of_not_has_service cache name k h
  · intro hne
    unfold post_pick_not_found
    cases hs : cache.has_service name with
    | false => rfl
    | true =>
      have hsome := get_location_isSome_of_has_service cache name k hs
      cases hget : cache.get_location name k with
      | none =>
        rw [hget] at hsome
        cases hsome
      | some location =>
        have hmem := get_location_mem cache name k location hget
        have hlocne := hne location hmem
        simp [hlocne]

/-- C8, a one-entry cache for the witness. -/
def c8Cache : ServiceState :=
  { services := upd (fun _ => none) "y" (some ["locA"])
    addresses := upd (fun _ => none) "locA" (some "y")
    subscriptions := fun _ => none }

/-- C8, witness: the pickLocation theorem applied to a one-entry cache and
to the empty cache. -/
theorem c8_pick_location_witness :
    "locA" ∈ (c8Cache.services "y").getD [] ∧
    (c8Cache.get_location "y" 0).isSome = true ∧
    ServiceState.empty.get_location "y" 0 = none ∧
    post_pick_not_found c8Cache "y" 0 = false :=
  ⟨(c8_pick_location c8Cache "y" 0).1 "locA" (by decide),
   (c8_pick_location c8Cache "y" 0).2.1 (by decide),
   (c8_pick_location ServiceState.empty "y" 0).2.2.1 rfl,
   (c8_pick_location c8Cache "y" 0).2.2.2 (by decide)⟩

/-- C8, counterexample cache: "y" present with only the empty-string
location. -/
def c8EmptyLocCache : ServiceState :=
  { services := upd (fun _ => none) "y" (some [""])
    addresses := upd (fun _ => none) "" (some "y")
    subscriptions := fun _ => none }

/-- C8, counterexample: with a cached empty-string location, `hasService`
holds yet the post-pick not-found branch of the cache-based call is taken,
refuting the claim's "unreachable" — the branch tests Python falsiness
(`if not location`), not only `None`. -/
theorem c8_pick_location_counterexample :
    c8EmptyLocCache.has_service "y" = true ∧
    post_pick_not_found c8EmptyLocCache "y" 0 = true := by
  constructor <;> decide

/-! ## Lemmas about the pub/sub operations -/

theorem alistInsert_pair {α : Type} (k1 k2 : String) (v1 v2 : α) (hne : k1 ≠ k2) :
    alistInsert [(k1, v1)] k2 v2 = [(k1, v1), (k2, v2)] := by
  simp [alistInsert, hne]

theorem subscribeOp_new_ok {μ ρ : Type} (m : PubSubManager μ ρ) (channel : String)
    (handler : μ → Except String ρ) (ts : Nat) (h : m.handlers channel = none) :
    subscribeOp m channel handler ts false
      = (.ok { m with
               counter := m.counter + 1
               handlers := upd (upd m.handlers channel (some [])) channel
                 (some [(mkSubId channel (m.counter + 1) ts, handler)]) }
           (mkSubId channel (m.counter + 1) ts),
         [.subscribeEx channel m.service_location]) := by
  unfold subscribeOp
  rw [h]
  rfl

theorem subscribeOp_new_fail {μ ρ : Type} (m : PubSubManager μ ρ) (channel : String)
    (handler : μ → Except String ρ) (ts : Nat) (h : m.handlers channel = none) :
    subscribeOp m channel handler ts true
      = (.registryFailed { m with
                           counter := m.counter + 1
                           handlers := upd m.handlers channel (some []) },
         [.subscribeEx channel m.service_location]) := by
  unfold subscribeOp
  rw [h]
  rfl

theorem subscribeOp_existing {μ ρ : Type} (m : PubSubManager μ ρ) (channel : String)
    (handler : μ → Except String ρ) (ts : Nat) (exFails : Bool)
    (hs : List (String × (μ → Except String ρ))) (h : m.handlers channel = some hs) :
    subscribeOp m channel handler ts exFails
      = (.ok { m with
               counter := m.counter + 1
               handlers := upd m.handlers channel
                 (some (alistInsert hs (mkSubId channel (m.counter + 1) ts) handler)) }
           (mkSubId channel (m.counter + 1) ts),
         []) := by
  unfold subscribeOp
  rw [h]

theorem unsubscribeOp_keep {μ ρ : Type} (m : PubSubManager μ ρ)
    (channel subId : String) (hs : List (String × (μ → Except String ρ)))
    (v : μ → Except String ρ) (exFails : Bool)
    (h : m.handlers channel = some hs) (hfind : alistFind hs subId = some v)
    (hne : ¬ (alistErase hs subId).isEmpty = true) :
    unsubscribeOp m channel subId exFails
      = (.ok { m with handlers := upd m.handlers channel (some (alistErase hs subId)) },
         []) := by
  unfold unsubscribeOp
  rw [h]
  dsimp only
  rw [hfind]
  dsimp only
  rw [if_neg hne]

theorem unsubscribeOp_last {μ ρ : Type} (m : PubSubManager μ ρ)
    (channel subId : String) (hs : List (String × (μ → Except String ρ)))
    (v : μ → Except String ρ)
    (h : m.handlers channel = some hs) (hfind : alistFind hs subId = some v)
    (hemp : (alistErase hs subId).isEmpty = true) :
    unsubscribeOp m channel subId false
      = (.ok { m with handlers := upd m.handlers channel none },
         [.unsubscribeEx channel m.service_location]) := by
  unfold unsubscribeOp
  rw [h]
  dsimp only
  rw [hfind]
  dsimp only
  rw [if_pos hemp]
  rfl

/-! ## Claim C2 — single registry exchange per channel -/

/-- C2: subscribing twice to a channel with no prior handlers issues
exactly one registry subscribe exchange (on the first call only); the
exchange must complete before the handler becomes active (if it raises,
the handler is not added); unsubscribing both returned ids issues exactly
one registry unsubscribe exchange, only after the second removal, which
also deletes the channel's entry from the handler map. -/
theorem c2_subscribe_unsubscribe :
    ∀ {μ ρ : Type} (m : PubSubManager μ ρ) (channel : String)
      (h1 h2 : μ → Except String ρ) (ts1 ts2 : Nat),
      m.handlers channel = none →
      ∃ m1 id1 m2 id2 m3 m4,
        subscribeOp m channel h1 ts1 false
          = (.ok m1 id1, [.subscribeEx channel m.service_location]) ∧
        subscribeOp m1 channel h2 ts2 false = (.ok m2 id2, []) ∧
        m2.handlers channel = some [(id1, h1), (id2, h2)] ∧
        unsubscribeOp m2 channel id1 false = (.ok m3, []) ∧
        m3.handlers channel = some [(id2, h2)] ∧
        unsubscribeOp m3 channel id2 false
          = (.ok m4, [.unsubscribeEx channel m.service_location]) ∧
        m4.handlers channel = none ∧
        (∀ mf, (subscribeOp m channel h1 ts1 true).1 = .registryFailed mf →
          mf.handlers channel = some []) := by
  intro μ ρ m channel h1 h2 ts1 ts2 hnone
  set i1 : String := mkSubId channel (m.counter + 1) ts1 with hi1
  set m1 : PubSubManager μ ρ := { m with
    counter := m.counter + 1
    handlers := upd (upd m.handlers channel (some [])) channel (some [(i1, h1)]) } with hm1
  set i2 : String := mkSubId channel (m1.counter + 1) ts2 with hi2
  set m2 : PubSubManager μ ρ := { m1 with
    counter := m1.counter + 1
    handlers := upd m1.handlers channel (some (alistInsert [(i1, h1)] i2 h2)) } with hm2
  set m3 : PubSubManager μ ρ := { m2 with
    handlers := upd m2.handlers channel (some (alistErase [(i1, h1), (i2, h2)] i1)) } with hm3
  set m4 : PubSubManager μ ρ := { m3 with
    handlers := upd m3.handlers channel none } with hm4
  have hne : i1 ≠ i2 :=
    mkSubId_ne_of_counter_ne channel (m.counter + 1) (m.counter + 1 + 1) ts1 ts2 (by omega)
  have step1 : subscribeOp m channel h1 ts1 false
      = (.ok m1 i1, [.subscribeEx channel m.service_location]) :=
    subscribeOp_new_ok m channel h1 ts1 hnone
  have hm1h : m1.handlers channel = some [(i1, h1)] := upd_same _ _ _
  have step2 : subscribeOp m1 channel h2 ts2 false = (.ok m2 i2, []) :=
    subscribeOp_existing m1 channel h2 ts2 false [(i1, h1)] hm1h
  have hm2h : m2.handlers channel = some [(i1, h1), (i2, h2)] := by
    show upd m1.handlers channel (some (alistInsert [(i1, h1)] i2 h2)) channel = _
    rw [upd_same, alistInsert_pair _ _ _ _ hne]
  have step4 : unsubscribeOp m2 channel i1 false = (.ok m3, []) :=
    unsubscribeOp_keep m2 channel i1 [(i1, h1), (i2, h2)] h1 false hm2h
      (by simp [alistFind]) (by simp [alistErase])
  have hm3h : m3.handlers channel = some [(i2, h2)] := by
    show upd m2.handlers channel (some (alistErase [(i1, h1), (i2, h2)] i1)) channel = _
    rw [upd_same]
    simp [alistErase]
  have step6 : unsubscribeOp m3 channel i2 false
      = (.ok m4, [.unsubscribeEx channel m.service_location]) :=
    unsubscribeOp_last m3 channel i2 [(i2, h2)] h2 hm3h
      (by simp [alistFind]) (by simp [alistErase])
  have hm4h : m4.handlers channel = none := upd_same _ _ _
  have stepF : ∀ mf, (subscribeOp m channel h1 ts1 true).1 = .registryFailed mf →
      mf.handlers channel = some [] := by
    intro mf hmf
    rw [subscribeOp_new_fail m channel h1 ts1 hnone] at hmf
    dsimp only at hmf
    injection hmf with hmf2
    subst hmf2
    exact upd_same _ _ _
  exact ⟨m1, i1, m2, i2, m3, m4, step1, step2, hm2h, step4, hm3h, step6, hm4h, stepF⟩

/-- C2, witness manager: no handlers at all, counter 0. -/
def c2Mgr : PubSubManager Nat Nat :=
  { service_name := "svc", service_location := "locS",
    handlers := fun _ => none, counter := 0 }

/-- C2, witness: the subscribe/unsubscribe exchange-count theorem applied
to a concrete fresh manager and two concrete handlers. -/
theorem c2_subscribe_unsubscribe_witness :
    c2Mgr.handlers "chan" = none ∧
    (∃ m1 id1 m2 id2 m3 m4,
      subscribeOp c2Mgr "chan" (fun n => .ok n) 3 false
        = (.ok m1 id1, [.subscribeEx "chan" c2Mgr.service_location]) ∧
      subscribeOp m1 "chan" (fun n => .ok (n + 1)) 4 false = (.ok m2 id2, []) ∧
      m2.handlers "chan" = some [(id1, fun n => .ok n), (id2, fun n => .ok (n + 1))] ∧
      unsubscribeOp m2 "chan" id1 false = (.ok m3, []) ∧
      m3.handlers "chan" = some [(id2, fun n => .ok (n + 1))] ∧
      unsubscribeOp m3 "chan" id2 false
        = (.ok m4, [.unsubscribeEx "chan" c2Mgr.service_location]) ∧
      m4.handlers "chan" = none ∧
      (∀ mf, (subscribeOp c2Mgr "chan" (fun n => .ok n) 3 true).1 = .registryFailed mf →
        mf.handlers "chan" = some [])) :=
  ⟨rfl, c2_subscribe_unsubscribe c2Mgr "chan" (fun n => .ok n) (fun n => .ok (n + 1)) 3 4 rfl⟩

/-! ## Claim C10 — failed first subscribe leaves an empty channel entry -/

/-- C10: if the registry subscribe exchange raises during the first
subscribe for a channel, the error propagates and no handler is added, but
the channel's empty entry has been created; a subsequent subscribe to the
same channel adds its handler and returns a subscription id without
issuing any registry exchange. -/
theorem c10_failed_first_subscribe :
    ∀ {μ ρ : Type} (m : PubSubManager μ ρ) (channel : String)
      (h1 h2 : μ → Except String ρ) (ts1 ts2 : Nat),
      m.handlers channel = none →
      ∃ m1,
        subscribeOp m channel h1 ts1 true
          = (.registryFailed m1, [.subscribeEx channel m.service_location]) ∧
        m1.handlers channel = some [] ∧
        ∃ m2 subId,
          subscribeOp m1 channel h2 ts2 false = (.ok m2 subId, []) ∧
          m2.handlers channel = some [(subId, h2)] := by
  intro μ ρ m channel h1 h2 ts1 ts2 hnone
  refine ⟨_, subscribeOp_new_fail m channel h1 ts1 hnone, upd_same _ _ _, ?_⟩
  refine ⟨_, _, subscribeOp_existing _ channel h2 ts2 false [] (upd_same _ _ _), ?_⟩
  show upd _ channel _ channel = _
  rw [upd_same]
  rfl

/-- C10, witness manager. -/
def c10Mgr : PubSubManager Nat Nat :=
  { service_name := "svc2", service_location := "locT",
    handlers := fun _ => none, counter := 0 }

/-- C10, witness: the failed-first-subscribe theorem applied to a concrete
fresh manager. -/
theorem c10_failed_first_subscribe_witness :
    c10Mgr.handlers "ch10" = none ∧
    (∃ m1,
      subscribeOp c10Mgr "ch10" (fun n => .ok n) 7 true
        = (.registryFailed m1, [.subscribeEx "ch10" c10Mgr.service_location]) ∧
      m1.handlers "ch10" = some [] ∧
      ∃ m2 subId,
        subscribeOp m1 "ch10" (fun n => .ok (n * 2)) 8 false = (.ok m2 subId, []) ∧
        m2.handlers "ch10" = some [(subId, fun n => .ok (n * 2))]) :=
  ⟨rfl, c10_failed_first_subscribe c10Mgr "ch10" (fun n => .ok n) (fun n => .ok (n * 2)) 7 8 rfl⟩

/-! ## Claim C4 — dispatch aggregates results and errors -/

/-- The successful handler return values, in registration order. -/
def dispatchOks {μ ρ : Type} (hs : List (String × (μ → Except String ρ)))
    (message : μ) : List ρ :=
  hs.filterMap (fun p => (p.2 message).toOption)

/-- The structured error entries of the failing handlers, in registration
order. -/
def dispatchErrs {μ ρ : Type} (hs : List (String × (μ → Except String ρ)))
    (message : μ) : List ErrEntry :=
  hs.filterMap (fun p =>
    match p.2 message with
    | .ok _ => none
    | .error e => some (.handlerError p.1 e 500))

theorem handle_message_foldl {μ ρ : Type} (message : μ) :
    ∀ (hs : List (String × (μ → Except String ρ))) (acc : DispatchOutcome ρ),
      hs.foldl
        (fun acc p =>
          match p.2 message with
          | .ok r => { acc with results := acc.results ++ [r] }
          | .error e => { acc with errors := acc.errors ++ [.handlerError p.1 e 500] })
        acc
      = ⟨acc.results ++ dispatchOks hs message, acc.errors ++ dispatchErrs hs message⟩ := by
  intro hs
  induction hs with
  | nil =>
    intro acc
    simp [dispatchOks, dispatchErrs]
  | cons p rest ih =>
    intro acc
    simp only [List.foldl_cons]
    cases hp : p.2 message with
    | ok r =>
      rw [ih]
      simp [dispatchOks, dispatchErrs, hp, Except.toOption]
    | error e =>
      rw [ih]
      simp [dispatchOks, dispatchErrs, hp, Except.toOption]

/-- C4 (amended): `dispatch` invokes every currently registered handler in
registration order, independently catching each failure: successes
contribute their return values to `results` in order, failures contribute
structured `(subId, message, 500)` entries to `errors`, and nothing is
propagated to the publisher (`handle_message` is total).  A channel with no
entry in the handler map yields empty results and exactly one descriptive
error entry; a channel whose entry exists but is empty (reachable only
through a failed initial subscribe) yields empty results and empty errors. -/
theorem c4_dispatch :
    ∀ {μ ρ : Type} (m : PubSubManager μ ρ) (channel : String) (message : μ),
      (m.handlers channel = none →
        handle_message m channel message
          = ⟨[], [.noHandlers ("No handlers for channel " ++ channel)]⟩) ∧
      (∀ hs, m.handlers channel = some hs →
        handle_message m channel message
          = ⟨dispatchOks hs message, dispatchErrs hs message⟩) := by
  intro μ ρ m channel message
  constructor
  · intro h
    unfold handle_message
    rw [h]
  · intro hs h
    unfold handle_message
    rw [h]
    dsimp only
    rw [handle_message_foldl message hs ⟨[], []⟩]
    simp

/-- C4, witness handler list: `[ok, fail, ok]`. -/
def c4Handlers : List (String × (Nat → Except String Nat)) :=
  [("s1", fun n => .ok (n + 1)), ("s2", fun _ => .error "boom"),
   ("s3", fun n => .ok (n * 2))]

/-- C4, witness manager with the `[ok, fail, ok]` handlers on channel "c". -/
def c4Mgr : PubSubManager Nat Nat :=
  { service_name := "svc4", service_location := "locU",
    handlers := upd (fun _ => none) "c" (some c4Handlers), counter := 3 }

/-- C4, witness: the dispatch theorem applied to a concrete manager with
handlers `[ok→n+1, fail→"boom", ok→n*2]` on message 5: `results = [6, 10]`
and exactly one structured error entry; a channel with no entry yields one
descriptive error. -/
theorem c4_dispatch_witness :
    handle_message c4Mgr "missing" (5 : Nat)
      = ⟨[], [.noHandlers "No handlers for channel missing"]⟩ ∧
    handle_message c4Mgr "c" (5 : Nat)
      = ⟨dispatchOks c4Handlers 5, dispatchErrs c4Handlers 5⟩ ∧
    dispatchOks c4Handlers 5 = [6, 10] ∧
    dispatchErrs c4Handlers 5 = [.handlerError "s2" "boom" 500] :=
  ⟨(c4_dispatch c4Mgr "missing" 5).1 rfl,
   (c4_dispatch c4Mgr "c" 5).2 c4Handlers rfl,
   rfl, rfl⟩

/-- C4, counterexample manager: channel "c" has an empty handler entry, as
left behind by a failed initial subscribe. -/
def c4EmptyEntryMgr : PubSubManager Nat Nat :=
  { service_name := "svc4", service_location := "locU",
    handlers := upd (fun _ => none) "c" (some []), counter := 1 }

/-- C4, counterexample: channel "c" has no local handlers, yet `dispatch`
returns empty `errors` (no descriptive entry), refuting the claim's "a
channel with no local handlers yields ... exactly one descriptive entry in
errors"; the first conjunct shows the state arises from a failed first
subscribe on a fresh manager. -/
theorem c4_dispatch_counterexample :
    (subscribeOp ({ service_name := "svc4", service_location := "locU",
                    handlers := fun _ => none, counter := 0 } : PubSubManager Nat Nat)
        "c" (fun n => .ok n) 0 true).1 = .registryFailed c4EmptyEntryMgr ∧
    c4EmptyEntryMgr.handlers "c" = some [] ∧
    handle_message c4EmptyEntryMgr "c" (0 : Nat) = ⟨[], []⟩ := by
  refine ⟨?_, ?_, ?_⟩
  · rfl
  · rfl
  · rfl

/-! ## Claim C3 — registration retry on port conflicts -/

theorem allocate_and_bind_ok (bindRes : Nat → BindResult) (alloc : Nat → Nat)
    (remaining setups binds port : Nat) (h : bindRes binds = .ok) :
    allocate_and_bind bindRes alloc remaining setups binds port
      = .bound port setups (binds + 1) := by
  cases remaining with
  | zero => simp [allocate_and_bind, h]
  | succ r => simp [allocate_and_bind, h]

theorem allocate_and_bind_other (bindRes : Nat → BindResult) (alloc : Nat → Nat)
    (remaining setups binds port : Nat) (h : bindRes binds = .otherError) :
    allocate_and_bind bindRes alloc remaining setups binds port
      = .fatalBind setups (binds + 1) := by
  cases remaining with
  | zero => simp [allocate_and_bind, h]
  | succ r => simp [allocate_and_bind, h]

theorem allocate_and_bind_in_use_step (bindRes : Nat → BindResult) (alloc : Nat → Nat)
    (r setups binds port : Nat) (h : bindRes binds = .addrInUse) :
    allocate_and_bind bindRes alloc (r + 1) setups binds port
      = allocate_and_bind bindRes alloc r (setups + 1) (binds + 1) (alloc setups) := by
  simp [allocate_and_bind, h]

theorem allocate_and_bind_all_in_use (bindRes : Nat → BindResult) (alloc : Nat → Nat)
    (hall : ∀ i, bindRes i = .addrInUse) :
    ∀ (remaining setups binds port : Nat),
      allocate_and_bind bindRes alloc remaining setups binds port
        = .retryExceeded (setups + remaining) (binds + remaining + 1) := by
  intro remaining
  induction remaining with
  | zero =>
    intro setups binds port
    simp [allocate_and_bind, hall binds]
  | succ r ih =>
    intro setups binds port
    rw [allocate_and_bind_in_use_step bindRes alloc r setups binds port (hall binds)]
    rw [ih (setups + 1) (binds + 1) (alloc setups)]
    congr 1 <;> omega

/-- C3: a bind failure with "Address already in use" triggers a fresh
setup allocation and a retry, up to the configured retry ceiling, beyond
which `RegistrationError` is raised; any other bind failure is re-raised
immediately; and when the first two allocated ports are in use and the
third bind succeeds, creation reaches the registered state with exactly
three setup calls and three bind attempts (two additional). -/
theorem c3_registration_retry :
    ∀ (bindRes : Nat → BindResult) (alloc : Nat → Nat) (retryLimit : Nat)
      (registerOk : Bool),
      (bindRes 0 = .addrInUse → bindRes 1 = .addrInUse → bindRes 2 = .ok →
        3 ≤ retryLimit →
        create_service_reg bindRes alloc retryLimit true
          = .registered (alloc 2) 3 3) ∧
      ((∀ i, bindRes i = .addrInUse) → 1 ≤ retryLimit →
        create_service_reg bindRes alloc retryLimit registerOk
          = .registrationError retryLimit retryLimit) ∧
      (bindRes 0 = .otherError →
        create_service_reg bindRes alloc retryLimit registerOk
          = .fatalBind 1 1) := by
  intro bindRes alloc retryLimit registerOk
  refine ⟨?_, ?_, ?_⟩
  · intro h0 h1 h2 hlim
    unfold create_service_reg
    rw [show retryLimit - 1 = ((retryLimit - 3) + 1) + 1 by omega]
    rw [allocate_and_bind_in_use_step bindRes alloc _ 1 0 (alloc 0) h0]
    rw [allocate_and_bind_in_use_step bindRes alloc _ 2 1 (alloc 1) h1]
    rw [allocate_and_bind_ok bindRes alloc _ 3 2 (alloc 2) h2]
    rfl
  · intro hall hlim
    unfold create_service_reg
    rw [allocate_and_bind_all_in_use bindRes alloc hall (retryLimit - 1) 1 0 (alloc 0)]
    rw [show 1 + (retryLimit - 1) = retryLimit by omega,
      show 0 + (retryLimit - 1) + 1 = retryLimit by omega]
  · intro h0
    unfold create_service_reg
    rw [allocate_and_bind_other bindRes alloc (retryLimit - 1) 1 0 (alloc 0) h0]

/-- C3, witness bind sequence: the first two bind attempts report the port
in use, the third succeeds. -/
def c3BindSeq : Nat → BindResult := fun i => if i < 2 then .addrInUse else .ok

/-- C3, witness: the retry theorem applied to concrete bind sequences with
the default retry limit 50 — the two-conflicts scenario registers after
three setup calls and three bind attempts; permanent conflicts exhaust the
ceiling; a different bind error is fatal at once. -/
theorem c3_registration_retry_witness :
    create_service_reg c3BindSeq (fun j => 9000 + j) 50 true = .registered 9002 3 3 ∧
    create_service_reg (fun _ => .addrInUse) (fun j => 9000 + j) 50 true
      = .registrationError 50 50 ∧
    create_service_reg (fun _ => .otherError) (fun j => 9000 + j) 50 true
      = .fatalBind 1 1 :=
  ⟨(c3_registration_retry c3BindSeq (fun j => 9000 + j) 50 true).1 rfl rfl rfl
     (by omega),
   (c3_registration_retry (fun _ => .addrInUse) (fun j => 9000 + j) 50 true).2.1
     (fun _ => rfl) (by omega),
   (c3_registration_retry (fun _ => .otherError) (fun j => 9000 + j) 50 true).2.2 rfl⟩

/-! ## Claim C9 — codec builders and parser -/

/-- The value an optional builder argument contributes: absent or
empty-string arguments contribute nothing (Python truthiness). -/
def optVal (o : Option String) : Option String :=
  match o with
  | some s => if s.isEmpty then none else some s
  | none => none

theorem withOptHeader_other (h : Headers) (key : String) (o : Option String)
    (k' : String) (hk : k' ≠ key) : withOptHeader h key o k' = h k' := by
  unfold withOptHeader
  cases o with
  | none => rfl
  | some s =>
    dsimp only
    by_cases hs : s.isEmpty
    · rw [if_pos hs]
    · rw [if_neg hs]
      exact upd_other _ _ _ _ hk

theorem withOptHeader_same (h : Headers) (key : String) (o : Option String)
    (h0 : h key = none) : withOptHeader h key o key = optVal o := by
  unfold withOptHeader optVal
  cases o with
  | none => exact h0
  | some s =>
    dsimp only
    by_cases hs : s.isEmpty
    · rw [if_pos hs, if_pos hs]
      exact h0
    · rw [if_neg hs, if_neg hs]
      exact upd_same _ _ _

/-- C9 (amended): for every command kind, parsing the header set produced
by that command's builder yields a descriptor whose command tag and fields
equal the builder's arguments, except that optional arguments supplied as
the empty string are treated as absent (Python truthiness); and every
credential-accepting builder attaches a supplied non-empty credential as
the separate credential header (never folded into any parsed field, which
are identical whether or not a credential is supplied). -/
theorem c9_codec_roundtrip :
    ∀ (n loc home ch path dt rt : String) (auth tok : Option String),
      (parse_command_headers (build_setup_headers n home tok)
        = ⟨some Command.SERVICE_SETUP, some n, none, none, some home,
           none, none, none, none⟩ ∧
       build_setup_headers n home tok Header.REGISTRY_TOKEN = optVal tok) ∧
      (parse_command_headers (build_register_headers n loc auth tok)
        = ⟨some Command.SERVICE_REGISTER, some n, some loc, optVal auth, none,
           none, none, none, none⟩ ∧
       build_register_headers n loc auth tok Header.REGISTRY_TOKEN = optVal tok) ∧
      (parse_command_headers (build_unregister_headers n loc tok)
        = ⟨some Command.SERVICE_UNREGISTER, some n, some loc, none, none,
           none, none, none, none⟩ ∧
       build_unregister_headers n loc tok Header.REGISTRY_TOKEN = optVal tok) ∧
      (parse_command_headers (build_lookup_headers n)
        = ⟨some Command.SERVICE_LOOKUP, some n, none, none, none,
           none, none, none, none⟩) ∧
      (parse_command_headers (build_call_headers n auth)
        = ⟨some Command.SERVICE_CALL, some n, none, none, none,
           none, none, none, none⟩ ∧
       build_call_headers n auth Header.AUTH_TOKEN = optVal auth) ∧
      (parse_command_headers (build_route_register_headers n path dt rt tok)
        = ⟨some Command.ROUTE_REGISTER, some n, none, none, none,
           some path, some dt, some rt, none⟩ ∧
       build_route_register_headers n path dt rt tok Header.REGISTRY_TOKEN = optVal tok) ∧
      (parse_command_headers (build_publish_headers ch tok)
        = ⟨some Command.PUBSUB_PUBLISH, none, none, none, none,
           none, none, none, some ch⟩ ∧
       build_publish_headers ch tok Header.REGISTRY_TOKEN = optVal tok) ∧
      (parse_command_headers (build_subscribe_headers ch loc tok)
        = ⟨some Command.PUBSUB_SUBSCRIBE, none, some loc, none, none,
           none, none, none, some ch⟩ ∧
       build_subscribe_headers ch loc tok Header.REGISTRY_TOKEN = optVal tok) ∧
      (parse_command_headers (build_unsubscribe_headers ch loc tok)
        = ⟨some Command.PUBSUB_UNSUBSCRIBE, none, some loc, none, none,
           none, none, none, some ch⟩ ∧
       build_unsubscribe_headers ch loc tok Header.REGISTRY_TOKEN = optVal tok) ∧
      (parse_command_headers (build_cache_update_headers ch n loc)
        = ⟨some Command.CACHE_UPDATE, some n, some loc, none, none,
           none, none, none, some ch⟩) := by
  intro n loc home ch path dt rt auth tok
  refine ⟨⟨?_, ?_⟩, ⟨?_, ?_⟩, ⟨?_, ?_⟩, ?_, ⟨?_, ?_⟩, ⟨?_, ?_⟩, ⟨?_, ?_⟩,
    ⟨?_, ?_⟩, ⟨?_, ?_⟩, ?_⟩ <;>
  simp [parse_command_headers, build_setup_headers, build_register_headers,
    build_unregister_headers, build_lookup_headers, build_call_headers,
    build_route_register_headers, build_publish_headers, build_subscribe_headers,
    build_unsubscribe_headers, build_cache_update_headers,
    withOptHeader_other, withOptHeader_same, upd, emptyHeaders,
    Header.COMMAND, Header.SERVICE_NAME, Header.SERVICE_LOCATION,
    Header.SERVICE_HOME, Header.USE_AUTH_SERVICE, Header.AUTH_TOKEN,
    Header.REGISTRY_TOKEN, Header.ROUTE_PATH, Header.ROUTE_DATATYPE,
    Header.ROUTE_TYPE, Header.PUBSUB_CHANNEL]

/-- C9, counterexample: supplying the empty string as an optional argument
is dropped rather than reproduced — the parsed auth-service field of a
register header set built with `use_auth_service = ""` is `None`, not
`""`; and a supplied empty-string registry credential is not attached as a
credential header.  The builders test Python truthiness, not presence. -/
theorem c9_codec_counterexample :
    (parse_command_headers (build_register_headers "n" "l" (some "") none)).use_auth_service
      = none ∧
    build_setup_headers "n" "h" (some "") Header.REGISTRY_TOKEN = none := by
  constructor <;> decide

end Yamf
